import Mathlib

/-!
Verification of the streaming/session core of the aitrans.nvim plugin.

The definitions below are shallow embeddings of the TypeScript sources:
pure functions become Lean functions, the mutable closure state of the
stream buffer and the output sessions becomes explicit state passing,
and the calls a session makes into the host editor (buffer mutation,
register writes) are recorded as an explicit list of effects.
-/

/-! ## String primitives

The JavaScript string operations the sources rely on, re-implemented over
character lists so that every concrete computation below reduces inside
the kernel. -/

/-- The ASCII whitespace characters stripped by the JavaScript trim
method; the inputs of this development contain no exotic Unicode
whitespace. -/
def isJsWhitespace (c : Char) : Bool :=
  c = ' ' ∨ c = '\t' ∨ c = '\n' ∨ c = '\r' ∨ c = '\x0b' ∨ c = '\x0c'

/-- The JavaScript trim method: strip whitespace from both ends. -/
def jsTrim (s : String) : String :=
  String.mk (((s.data.dropWhile isJsWhitespace).reverse.dropWhile isJsWhitespace).reverse)

/-- Worker for splitOnChar, accumulating the current segment reversed. -/
def splitOnCharGo (sep : Char) : List Char → List Char → List String
  | [], acc => [String.mk acc.reverse]
  | c :: rest, acc =>
    if c = sep then String.mk acc.reverse :: splitOnCharGo sep rest []
    else splitOnCharGo sep rest (c :: acc)

/-- The JavaScript split method for a one-character separator, the only
form the sources use: the result always has at least one element, and a
trailing separator contributes a final empty segment. -/
def splitOnChar (sep : Char) (s : String) : List String :=
  splitOnCharGo sep s.data []

/-- The JavaScript global-replace of one character by the empty string. -/
def removeChar (target : Char) (s : String) : String :=
  String.mk (s.data.filter (fun c => c ≠ target))

/-- The JavaScript array join method with a newline separator. -/
def joinLines : List String → String
  | [] => ""
  | [l] => l
  | l :: rest => l ++ "\n" ++ joinLines rest

/-! ## Streaming text accumulator (src/denops/aitrans/core/stream_buffer.ts) -/

namespace StreamingBuffer

/-- Initial state of the buffer created by createStreamingBuffer:
a single empty line. -/
def init : List String := [""]

/-- The append operation of createStreamingBuffer (stream_buffer.ts lines
11 to 21). Empty text leaves the state unchanged; otherwise the text is
split on newline characters, the first segment extends the last line and
the remaining segments are pushed as new lines. The state is never empty
in any reachable state (proved below), so taking the last line with a
default of the empty string is faithful to the source. -/
def append (lines : List String) (text : String) : List String :=
  if text.length = 0 then lines
  else
    let segments := splitOnChar (Char.ofNat 10) text
    lines.dropLast ++ [(lines.getLast?.getD "") ++ segments.headI] ++ segments.tail

/-- The getLines operation: returns a snapshot copy of the lines, which in
the pure model is the state itself. -/
def getLines (lines : List String) : List String := lines

/-- The clear operation: reset to the single empty line. -/
def clear : List String := [""]

/-- The drainText operation (stream_buffer.ts lines 29 to 33): returns the
lines joined with a newline together with the reset state. -/
def drainText (lines : List String) : String × List String :=
  (joinLines lines, clear)

/-- One external call on the buffer. -/
inductive Op where
  | append (text : String)
  | clear
  | drain

/-- Apply one operation to the state. -/
def step (lines : List String) : Op → List String
  | .append t => append lines t
  | .clear => clear
  | .drain => (drainText lines).2

/-- Run a sequence of operations from the initial state. -/
def run (ops : List Op) : List String :=
  ops.foldl step init

theorem step_ne_nil (lines : List String) (h : lines ≠ []) (op : Op) :
    step lines op ≠ [] := by
  cases op with
  | append t =>
    simp only [step, append]
    split
    · exact h
    · simp
  | clear => simp [step, clear]
  | drain => simp [step, drainText, clear]

theorem foldl_step_ne_nil (ops : List Op) :
    ∀ lines, lines ≠ [] → List.foldl step lines ops ≠ [] := by
  induction ops with
  | nil => intro lines h; simpa using h
  | cons op rest ih =>
    intro lines h
    exact ih _ (step_ne_nil lines h op)

theorem run_ne_nil (ops : List Op) : run ops ≠ [] :=
  foldl_step_ne_nil ops init (by simp [init])

end StreamingBuffer

/-! ## Follow-up normalization (src/denops/aitrans/chat/followup.ts) -/

/-- A raw follow-up input entry that passed the runtime shape check
isFollowUpInput: an optional numeric key and a text string. -/
structure FollowUpInput where
  key : Option Int
  text : String
deriving DecidableEq, Repr

/-- A normalized follow-up entry. The same shape is called FollowUpItem in
src/denops/aitrans/store/chat.ts. -/
structure FollowUpEntry where
  key : Int
  text : String
deriving DecidableEq, Repr

/-- clampKey from followup.ts lines 35 to 37. Source keys are already
integral in every claim input, so Math.trunc is the identity here. -/
def clampKey (value : Int) : Int :=
  max 1 (min 4 value)

/-- The loop of normalizeFollowUps (followup.ts lines 17 to 31), with the
accumulator made explicit: empty trimmed text is skipped, a missing key
defaults to the current accumulator length plus one, and the loop stops
as soon as four entries are kept. -/
def normalizeFollowUpsGo : List FollowUpInput → List FollowUpEntry → List FollowUpEntry
  | [], acc => acc
  | e :: rest, acc =>
    let text := jsTrim e.text
    if text.length = 0 then normalizeFollowUpsGo rest acc
    else
      let key := clampKey (e.key.getD ((acc.length : Int) + 1))
      let acc2 := acc ++ [⟨key, text⟩]
      if 4 ≤ acc2.length then acc2 else normalizeFollowUpsGo rest acc2

/-- normalizeFollowUps from followup.ts lines 13 to 33, restricted to
payloads that are arrays of entries passing the shape check (entries
failing the check are skipped by the source exactly like entries with
empty trimmed text, and a non-array payload yields the empty list). -/
def normalizeFollowUps (payload : List FollowUpInput) : List FollowUpEntry :=
  normalizeFollowUpsGo payload []

/-- The concrete input of the spec example for follow-up normalization. -/
def followUpExampleInput : List FollowUpInput :=
  [⟨some 5, " A "⟩, ⟨some 0, ""⟩, ⟨none, "B"⟩, ⟨none, "C"⟩, ⟨none, "D"⟩, ⟨none, "E"⟩]

/-! ## Output sessions (src/denops/aitrans/core/output.ts)

Each output session variant holds a private streaming buffer and talks to
the host editor only through buffer or register mutation calls. Those host
calls are recorded here as an explicit effect list returned next to the
new session state. -/

/-- A one-based editor position as carried by the template context. -/
structure Pos where
  row : Int
  col : Int
deriving DecidableEq, Repr

/-- The fields of the template context that the replace session reads
(output.ts lines 42 to 50): the destination buffer number and the recorded
selection range. -/
structure TemplateCtx where
  bufnr : Int
  start_pos : Pos
  end_pos : Pos
deriving DecidableEq, Repr

/-- A destination mutation performed by an output session: either an
nvim_buf_set_text call or a setreg call. -/
inductive BufEffect where
  | setText (bufnr startRow startCol endRow endCol : Int) (lines : List String)
  | setReg (register : String) (text : String)
deriving DecidableEq, Repr

/-- splitText from output.ts lines 295 to 297: strip carriage returns and
split on newlines. -/
def splitText (text : String) : List String :=
  splitOnChar (Char.ofNat 10) (removeChar (Char.ofNat 13) text)

/-- formatReason from output.ts lines 299 to 307, restricted to string
reasons, which are rendered verbatim. -/
def formatReason (reason : String) : String := reason

/-- State of a replace output session: the coordinates captured at
creation time and the private streaming buffer. -/
structure ReplaceSession where
  bufnr : Int
  startRow : Int
  startCol : Int
  endRow : Int
  endCol : Int
  writer : List String
deriving DecidableEq, Repr

/-- createReplaceSession from output.ts lines 42 to 50: the zero-based
range is computed once from the context. -/
def createReplaceSession (ctx : TemplateCtx) : ReplaceSession :=
  { bufnr := ctx.bufnr
    startRow := ctx.start_pos.row - 1
    startCol := max 0 (ctx.start_pos.col - 1)
    endRow := ctx.end_pos.row - 1
    endCol := max 0 ctx.end_pos.col
    writer := StreamingBuffer.init }

/-- The append operation of the replace session (output.ts lines 53 to 56):
falsy text is ignored, otherwise the text is buffered. No destination
mutation is performed. -/
def ReplaceSession.append (s : ReplaceSession) (text : String) :
    ReplaceSession × List BufEffect :=
  if text.length = 0 then (s, [])
  else ({ s with writer := StreamingBuffer.append s.writer text }, [])

/-- The finalize operation of the replace session (output.ts lines 57 to
68): one nvim_buf_set_text call replacing the recorded range with the full
accumulated text. -/
def ReplaceSession.finalize (s : ReplaceSession) :
    ReplaceSession × List BufEffect :=
  (s, [BufEffect.setText s.bufnr s.startRow s.startCol s.endRow s.endCol
    (splitText (joinLines (StreamingBuffer.getLines s.writer)))])

/-- The fail operation of the replace session (output.ts lines 69 to 71):
a no-op. -/
def ReplaceSession.fail (s : ReplaceSession) (_reason : String) :
    ReplaceSession × List BufEffect :=
  (s, [])

/-- State of a register output session: the resolved target register and
the private streaming buffer. -/
structure RegisterSession where
  target : String
  writer : List String
deriving DecidableEq, Repr

/-- createRegisterSession from output.ts lines 174 to 177: a missing or
empty register argument falls back to the unnamed register. -/
def createRegisterSession (register : Option String) : RegisterSession :=
  { target :=
      match register with
      | some r => if r.length > 0 then r else "\""
      | none => "\""
    writer := StreamingBuffer.init }

/-- The append operation of the register session (output.ts lines 179 to
182): pure buffering, no destination mutation. -/
def RegisterSession.append (s : RegisterSession) (text : String) :
    RegisterSession × List BufEffect :=
  if text.length = 0 then (s, [])
  else ({ s with writer := StreamingBuffer.append s.writer text }, [])

/-- The finalize operation of the register session (output.ts lines 183 to
186): one setreg call with the full accumulated text. -/
def RegisterSession.finalize (s : RegisterSession) :
    RegisterSession × List BufEffect :=
  (s, [BufEffect.setReg s.target (joinLines (StreamingBuffer.getLines s.writer))])

/-- The fail operation of the register session (output.ts lines 187 to
189): a no-op. -/
def RegisterSession.fail (s : RegisterSession) (_reason : String) :
    RegisterSession × List BufEffect :=
  (s, [])

/-- Run a sequence of append calls against a session, collecting the
destination mutations performed along the way. -/
def runAppends {σ : Type} (app : σ → String → σ × List BufEffect) :
    σ → List String → σ × List BufEffect
  | s, [] => (s, [])
  | s, t :: rest =>
    let r1 := app s t
    let r2 := runAppends app r1.1 rest
    (r2.1, r1.2 ++ r2.2)

theorem runAppends_no_effects {σ : Type} (app : σ → String → σ × List BufEffect)
    (happ : ∀ s t, (app s t).2 = []) :
    ∀ (s : σ) (ts : List String), (runAppends app s ts).2 = [] := by
  intro s ts
  induction ts generalizing s with
  | nil => rfl
  | cons t rest ih => simp [runAppends, happ, ih]

theorem replaceAppend_no_effects (s : ReplaceSession) (t : String) :
    (s.append t).2 = [] := by
  unfold ReplaceSession.append
  split <;> rfl

theorem registerAppend_no_effects (s : RegisterSession) (t : String) :
    (s.append t).2 = [] := by
  unfold RegisterSession.append
  split <;> rfl

/-! ## Normalized chunks and the CLI chunk normalizer
(src/denops/aitrans/core/providers/cli.ts) -/

/-- A JSON value, the shape produced by parsing a line of CLI output. -/
inductive Json where
  | null
  | bool (b : Bool)
  | num (n : Int)
  | str (s : String)
  | arr (elems : List Json)
  | obj (fields : List (String × Json))

/-- Field lookup on a JSON object; any non-object value has no fields. -/
def Json.getField : Json → String → Option Json
  | .obj fields, k => fields.lookup k
  | _, _ => none

/-- Extract a string, mirroring a typeof check against the string type. -/
def Json.asStr : Option Json → Option String
  | some (.str s) => some s
  | _ => none

/-- Extract a number, mirroring a typeof check against the number type. -/
def Json.asNum : Option Json → Option Int
  | some (.num n) => some n
  | _ => none

/-- The is.Record runtime check: true exactly on objects. -/
def Json.isRecord : Json → Bool
  | .obj _ => true
  | _ => false

/-- The usage_partial field of a normalized chunk: independently optional
input and output token counts. -/
structure UsagePartial where
  input : Option Int := none
  output : Option Int := none
deriving DecidableEq, Repr

/-- NormalizedChunk from src/denops/aitrans/stream/normalize.ts as consumed
by the job runner: every field is independently optional; a missing done
flag is modelled as false. -/
structure NormalizedChunk where
  text_delta : Option String := none
  done : Bool := false
  usage_partial : Option UsagePartial := none
  raw : Option Json := none

/-- A provider-context hook fired by the CLI normalizer, modelled as data
instead of a callback invocation. -/
inductive HookEvent where
  | threadStarted (id : String)
  | sessionId (id : String)
deriving DecidableEq, Repr

/-- Result of consuming one CLI output line: the normalized chunk, when the
line carries one, plus the hooks fired while mapping it. -/
structure CliStepResult where
  chunk : Option NormalizedChunk
  hooks : List HookEvent

/-- The two CLI providers recognized by isCliProvider (cli.ts lines 351 to
353). -/
inductive CliProvider where
  | codexCli
  | claudeCli
deriving DecidableEq, Repr

/-- mapCodexEvent from cli.ts lines 520 to 566. Non-object payloads and
objects without a string type field carry no chunk; thread.started fires
the thread hook and passes the payload through as raw; item.completed
yields the agent message text when present and non-empty; turn.completed
yields the done flag with any usage counts; all other event types pass
through as raw. -/
def mapCodexEvent (payload : Json) : CliStepResult :=
  if payload.isRecord then
    match Json.asStr (payload.getField "type") with
    | none => ⟨none, []⟩
    | some t =>
      if t = "thread.started" then
        let hooks :=
          match Json.asStr (payload.getField "thread_id") with
          | some tid => if tid.length > 0 then [HookEvent.threadStarted tid] else []
          | none => []
        ⟨some { raw := some payload }, hooks⟩
      else if t = "item.completed" then
        let item :=
          match payload.getField "item" with
          | some j => if j.isRecord then some j else none
          | none => none
        let itemType := Json.asStr (item.bind (fun j => j.getField "type"))
        let text := Json.asStr (item.bind (fun j => j.getField "text"))
        match itemType, text with
        | some ty, some s =>
          if ty = "agent_message" ∧ s.length > 0 then ⟨some { text_delta := some s }, []⟩
          else ⟨some { raw := some payload }, []⟩
        | _, _ => ⟨some { raw := some payload }, []⟩
      else if t = "turn.completed" then
        let usage :=
          match payload.getField "usage" with
          | some j => if j.isRecord then some j else none
          | none => none
        let inputTokens :=
          match Json.asNum (usage.bind (fun j => j.getField "input_tokens")) with
          | some n => some n
          | none => Json.asNum (usage.bind (fun j => j.getField "cached_input_tokens"))
        let outputTokens := Json.asNum (usage.bind (fun j => j.getField "output_tokens"))
        if inputTokens.isSome || outputTokens.isSome then
          ⟨some { done := true, usage_partial := some ⟨inputTokens, outputTokens⟩ }, []⟩
        else ⟨some { done := true }, []⟩
      else ⟨some { raw := some payload }, []⟩
  else ⟨none, []⟩

/-- mapClaudeResult from cli.ts lines 568 to 601. Only objects whose type
field is the string result carry a chunk; the chunk has done set, carries
the result text when non-empty and any usage counts, fires the session-id
hook, and falls back to raw passthrough when it has neither text nor
usage. -/
def mapClaudeResult (payload : Json) : CliStepResult :=
  if payload.isRecord ∧ Json.asStr (payload.getField "type") = some "result" then
    let textDelta :=
      match Json.asStr (payload.getField "result") with
      | some s => if s.length > 0 then some s else none
      | none => none
    let usage :=
      match payload.getField "usage" with
      | some j => if j.isRecord then some j else none
      | none => none
    let inputTokens :=
      match Json.asNum (usage.bind (fun j => j.getField "input_tokens")) with
      | some n => some n
      | none => Json.asNum (usage.bind (fun j => j.getField "cache_creation_input_tokens"))
    let outputTokens := Json.asNum (usage.bind (fun j => j.getField "output_tokens"))
    let usagePartial :=
      if inputTokens.isSome || outputTokens.isSome then
        some (UsagePartial.mk inputTokens outputTokens)
      else none
    let hooks :=
      match Json.asStr (payload.getField "session_id") with
      | some sid => if sid.length > 0 then [HookEvent.sessionId sid] else []
      | none => []
    let raw := if textDelta.isNone ∧ usagePartial.isNone then some payload else none
    ⟨some { text_delta := textDelta, done := true, usage_partial := usagePartial, raw := raw }, hooks⟩
  else ⟨none, []⟩

/-- consumeCliLine from cli.ts lines 503 to 518, with the JSON parser an
explicit parameter: when parsing the line throws, the raw line itself is
surfaced as a text delta; otherwise the parsed event is mapped by the
normalizer of the configured provider. The debugLog call on the success
path is a log side channel and performs no mutation. -/
def consumeCliLine (parse : String → Option Json) (provider : CliProvider)
    (line : String) : CliStepResult :=
  match parse line with
  | none => ⟨some { text_delta := some line }, []⟩
  | some parsed =>
    match provider with
    | .codexCli => mapCodexEvent parsed
    | .claudeCli => mapClaudeResult parsed

/-! ## Job registry and job runner
(src/denops/aitrans/jobs/manager.ts and src/denops/aitrans/jobs/runner.ts) -/

/-- Job status as declared in src/denops/aitrans/jobs/types.ts. -/
inductive JobStatus where
  | pending
  | streaming
  | applied
  | error
  | stopped
deriving DecidableEq, Repr

/-- JobRecord from jobs/types.ts; the AbortController is modelled by its
aborted flag. -/
structure JobRecord where
  id : String
  status : JobStatus
  aborted : Bool
deriving DecidableEq, Repr

/-- Modelled from the spec: the Job Registry of section 4.5. The file
src/denops/aitrans/jobs/manager.ts is not among the sources; its contract
is fixed by the spec and by jobs/manager_test.ts. The registry is a map
from job id to job record, modelled as an id-keyed list. -/
def Registry := List JobRecord

/-- Modelled from the spec: getJob looks up a job by id. -/
def getJob (reg : Registry) (id : String) : Option JobRecord :=
  List.find? (fun j => j.id == id) reg

/-- Modelled from the spec: registerJob stores a fresh pending job with an
untripped cancellation handle and returns it. -/
def registerJob (reg : Registry) (id : String) : JobRecord × Registry :=
  let job : JobRecord := ⟨id, JobStatus.pending, false⟩
  (job, List.append reg [job])

/-- Modelled from the spec: updateJobStatus mutates the stored status and
reports false for an unknown id. -/
def updateJobStatus (reg : Registry) (id : String) (status : JobStatus) :
    Bool × Registry :=
  match getJob reg id with
  | none => (false, reg)
  | some _ =>
    (true, List.map (fun j => if j.id == id then { j with status := status } else j) reg)

/-- Modelled from the spec: stopJob trips the cancellation handle, records
the stopped status, and reports false for an unknown id. -/
def stopJob (reg : Registry) (id : String) : Bool × Registry :=
  match getJob reg id with
  | none => (false, reg)
  | some _ =>
    (true, List.map
      (fun j => if j.id == id then { j with status := JobStatus.stopped, aborted := true } else j)
      reg)

/-- Modelled from the spec: finalizeJob removes the entry unconditionally. -/
def finalizeJob (reg : Registry) (id : String) : Registry :=
  List.filter (fun j => !(j.id == id)) reg

/-- The running usage record of the job runner, named after
TemplateCompletionUsage from src/denops/aitrans/core/template.ts. -/
structure TemplateCompletionUsage where
  input_tokens : Option Int := none
  output_tokens : Option Int := none
deriving DecidableEq, Repr

/-- The usage merge performed per chunk by runJob (runner.ts lines 52 to
57): each field takes the incoming value when present and otherwise keeps
the previously recorded value. -/
def mergeUsage (usage : Option TemplateCompletionUsage) (p : UsagePartial) :
    TemplateCompletionUsage :=
  { input_tokens :=
      match p.input with
      | some v => some v
      | none => usage.bind (fun u => u.input_tokens)
    output_tokens :=
      match p.output with
      | some v => some v
      | none => usage.bind (fun u => u.output_tokens) }

/-- An output session as the runner sees it: the three-operation contract,
over an explicit session state. -/
structure SessionOps (σ : Type) where
  append : σ → String → σ × List BufEffect
  finalize : σ → σ × List BufEffect
  fail : σ → String → σ × List BufEffect

/-- One call the runner makes on its output session. -/
inductive SessEvent where
  | appended (text : String)
  | finalized
  | failed (reason : String)
deriving DecidableEq, Repr

/-- Return true exactly on fail calls. -/
def SessEvent.isFail : SessEvent → Bool
  | .failed _ => true
  | _ => false

/-- The state threaded through the chunk loop of runJob: the session
state, the destination mutations and session calls so far, the
accumulated response chunks, and the running usage record. -/
structure LoopState (σ : Type) where
  sess : σ
  effects : List BufEffect
  events : List SessEvent
  responseChunks : List String
  usage : Option TemplateCompletionUsage
deriving Repr

/-- One iteration of the chunk loop of runJob (runner.ts lines 47 to 58):
a truthy text delta is pushed onto the response log and forwarded to the
session, and a present usage_partial is merged into the running usage. -/
def chunkStep {σ : Type} (ops : SessionOps σ) (st : LoopState σ)
    (c : NormalizedChunk) : LoopState σ :=
  let st1 :=
    match c.text_delta with
    | some t =>
      if t.length = 0 then st
      else
        let r := ops.append st.sess t
        { st with
            sess := r.1
            effects := st.effects ++ r.2
            events := st.events ++ [SessEvent.appended t]
            responseChunks := st.responseChunks ++ [t] }
    | none => st
  match c.usage_partial with
  | some p => { st1 with usage := some (mergeUsage st1.usage p) }
  | none => st1

/-- The full chunk loop of runJob over a finite chunk sequence. -/
def runChunks {σ : Type} (ops : SessionOps σ) (s : σ)
    (chunks : List NormalizedChunk) : LoopState σ :=
  chunks.foldl (chunkStep ops) ⟨s, [], [], [], none⟩

/-- The observable outcome of one runJob call. -/
structure RunResult (σ : Type) where
  sessionState : σ
  effects : List BufEffect
  events : List SessEvent
  responseChunks : List String
  usage : Option TemplateCompletionUsage
  status : JobStatus
  registry : Registry

/-- The finally block of runJob (runner.ts lines 101 to 109): persist the
final status in the registry, then remove the job when the status is
terminal. -/
def finishJob {σ : Type} (reg : Registry) (id : String) (r : RunResult σ) :
    RunResult σ :=
  let reg1 := (updateJobStatus reg id r.status).2
  let reg2 :=
    if r.status = JobStatus.applied ∨ r.status = JobStatus.error ∨
        r.status = JobStatus.stopped
    then finalizeJob reg1 id
    else reg1
  { r with registry := reg2 }

/-- runJob from runner.ts lines 42 to 110 as a function of its inputs. The
chunk iterator is a finite chunk list, optionally followed by a thrown
error; abortedAtCatch is the state of the cancellation handle of the job
when the catch block runs. On clean exhaustion the session is finalized
and the status becomes applied; a template completion callback failure is
caught and logged (lines 60 to 86) and changes nothing observable here. On
an error with the handle tripped the session fails with the literal reason
Job stopped and the status becomes stopped; otherwise the session fails
with the thrown error and the status becomes error. The finally block then
persists the status and removes the job. -/
def runJobModel {σ : Type} (ops : SessionOps σ) (sess : σ) (reg : Registry)
    (job : JobRecord) (chunks : List NormalizedChunk)
    (iterError : Option String) (abortedAtCatch : Bool) : RunResult σ :=
  let loop := runChunks ops sess chunks
  match iterError with
  | none =>
    let fin := ops.finalize loop.sess
    finishJob reg job.id
      ⟨fin.1, loop.effects ++ fin.2, loop.events ++ [SessEvent.finalized],
        loop.responseChunks, loop.usage, JobStatus.applied, reg⟩
  | some e =>
    if abortedAtCatch then
      let f := ops.fail loop.sess "Job stopped"
      finishJob reg job.id
        ⟨f.1, loop.effects ++ f.2, loop.events ++ [SessEvent.failed "Job stopped"],
          loop.responseChunks, loop.usage, JobStatus.stopped, reg⟩
    else
      let f := ops.fail loop.sess e
      finishJob reg job.id
        ⟨f.1, loop.effects ++ f.2, loop.events ++ [SessEvent.failed e],
          loop.responseChunks, loop.usage, JobStatus.error, reg⟩

/-- The replace output session packaged under the three-operation
contract. -/
def replaceOps : SessionOps ReplaceSession :=
  ⟨ReplaceSession.append, ReplaceSession.finalize, ReplaceSession.fail⟩

/-- The register output session packaged under the three-operation
contract. -/
def registerOps : SessionOps RegisterSession :=
  ⟨RegisterSession.append, RegisterSession.finalize, RegisterSession.fail⟩

/-! ## Chat session state and provider-context merge
(src/denops/aitrans/store/chat.ts) -/

/-- A provider continuation context, ProviderContext from store/chat.ts. -/
structure ProviderContext where
  provider : String
  thread_id : Option String := none
  session_id : Option String := none
deriving DecidableEq, Repr

/-- Message roles of ChatMessage from store/chat.ts. -/
inductive ChatRole where
  | user
  | assistant
deriving DecidableEq, Repr

/-- ChatMessage from store/chat.ts. -/
structure ChatMessage where
  role : ChatRole
  content : String
deriving DecidableEq, Repr

/-- BufferWindow from store/chat.ts. -/
structure BufferWindow where
  tabnr : Int
  winid : Int
  bufnr : Int
deriving DecidableEq, Repr

/-- Layout of the chat UI. -/
inductive LayoutMode where
  | tab
  | split
deriving DecidableEq, Repr

/-- ChatSessionState from store/chat.ts. -/
structure ChatSessionState where
  id : String
  prompt : BufferWindow
  response : BufferWindow
  headerLines : Nat
  followups : List FollowUpEntry
  followUpEnabled : Bool
  template : Option String := none
  provider : Option String := none
  layout_mode : LayoutMode
  origin_winid : Option Int := none
  messages : List ChatMessage
  streaming : Bool
  providerContext : Option ProviderContext := none
deriving DecidableEq, Repr

/-- JavaScript truthiness of an optional string field: present and
non-empty. -/
def truthyOptStr : Option String → Bool
  | some s => s ≠ ""
  | none => false

/-- The object-spread merge of setProviderContext (store/chat.ts lines 103
to 107): the incoming context is overlaid onto the existing context
object, or onto a bare provider-tag object when none exists; optional
fields absent from the incoming context keep the base value. -/
def overlayProviderContext (existing : Option ProviderContext)
    (incoming : ProviderContext) : ProviderContext :=
  let base := existing.getD { provider := incoming.provider }
  { provider := incoming.provider
    thread_id :=
      match incoming.thread_id with
      | some t => some t
      | none => base.thread_id
    session_id :=
      match incoming.session_id with
      | some t => some t
      | none => base.session_id }

/-- The setProviderContext reducer (store/chat.ts lines 95 to 109) applied
to an active session: a null payload changes nothing; a payload whose
provider tag differs from a truthy pinned provider is silently dropped;
otherwise the context is merged field by field. -/
def setProviderContext (session : ChatSessionState)
    (payload : Option ProviderContext) : ChatSessionState :=
  match payload with
  | none => session
  | some ctx =>
    if truthyOptStr session.provider ∧ session.provider ≠ some ctx.provider then
      session
    else
      { session with
          providerContext := some (overlayProviderContext session.providerContext ctx) }

/-! ## Chat log persistence
(src/denops/aitrans/chat/log.ts and src/denops/aitrans/chat/controller.ts) -/

/-- ChatLogRecord from chat/log.ts: the durable JSON form of a chat
session. It stores the raw prompt and response buffer texts; it has no
message-list field. -/
structure ChatLogRecord where
  id : String
  template : Option String := none
  provider : Option String := none
  follow_up_enabled : Bool
  followups : List FollowUpEntry
  prompt_text : String
  response_text : String
  created_at : String
  provider_context : Option ProviderContext := none
deriving DecidableEq, Repr

/-- The record construction of saveChatLog (log.ts lines 77 to 87). The
prompt and response texts are read from the two chat buffers by the host
and passed in here, as is the timestamp. -/
def buildChatLogRecord (session : ChatSessionState)
    (promptText responseText timestamp : String) : ChatLogRecord :=
  { id := session.id
    template := session.template
    provider := session.provider
    follow_up_enabled := session.followUpEnabled
    followups := session.followups
    prompt_text := promptText
    response_text := responseText
    created_at := timestamp
    provider_context := session.providerContext }

/-- The fields of ChatOpenOptions (chat/controller.ts lines 20 to 33) that
determine the pure part of the session produced by createChatSession. -/
structure ChatOpenOptions where
  template : Option String := none
  provider : Option String := none
  follow_up : Option Bool := none
  selection_lines : Option (List String) := none
  initial_response_lines : Option (List String) := none
  provider_context : Option ProviderContext := none
deriving Repr

/-- The session record built by initializeChatBuffers (controller.ts lines
609 to 624). The fresh id and the prompt and response windows come from
the host; the message log starts empty, streaming is off, and the provider
context falls back to a bare provider-tag context when a truthy provider
is set. -/
def initializeChatBuffers (newId : String) (promptWin responseWin : BufferWindow)
    (headerLines : Nat) (opts : ChatOpenOptions) (layoutMode : LayoutMode)
    (originWinid : Option Int) : ChatSessionState :=
  { id := newId
    prompt := promptWin
    response := responseWin
    headerLines := headerLines
    followups := []
    followUpEnabled := opts.follow_up == some true
    template := opts.template
    provider := opts.provider
    layout_mode := layoutMode
    origin_winid := originWinid
    messages := []
    streaming := false
    providerContext :=
      match opts.provider_context with
      | some c => some c
      | none =>
        match opts.provider with
        | some p => if p.length > 0 then some { provider := p } else none
        | none => none }

/-- The pure part of loadChatLog (controller.ts lines 284 to 301): the
record fields become chat-open options, createChatSession builds a fresh
session through initializeChatBuffers, the session is made active, and
setFollowups installs the stored follow-ups. The stored prompt and
response texts are rendered into the two buffers only; no dispatch touches
the message log. -/
def loadChatLogSession (record : ChatLogRecord) (newId : String)
    (promptWin responseWin : BufferWindow) (headerLines : Nat)
    (layoutMode : LayoutMode) (originWinid : Option Int) : ChatSessionState :=
  let opts : ChatOpenOptions :=
    { template := record.template
      provider := record.provider
      follow_up := some record.follow_up_enabled
      selection_lines := some (splitOnChar (Char.ofNat 10) record.prompt_text)
      initial_response_lines := some (splitOnChar (Char.ofNat 10) record.response_text)
      provider_context := record.provider_context }
  let session := initializeChatBuffers newId promptWin responseWin headerLines
    opts layoutMode originWinid
  { session with followups := record.followups }

/-! ## Claim theorems -/

/-- C7: every streaming-buffer state reachable by any sequence of append,
clear and drainText calls keeps at least one line; drainText returns
exactly the pre-drain getLines joined with a newline; and getLines
immediately after drainText yields the single empty line. -/
theorem streaming_buffer_drain_invariant (ops : List StreamingBuffer.Op) :
    1 ≤ (StreamingBuffer.run ops).length ∧
    (StreamingBuffer.drainText (StreamingBuffer.run ops)).1 =
      joinLines (StreamingBuffer.getLines (StreamingBuffer.run ops)) ∧
    StreamingBuffer.getLines (StreamingBuffer.drainText (StreamingBuffer.run ops)).2 = [""] := by
  refine ⟨?_, rfl, rfl⟩
  have h := StreamingBuffer.run_ne_nil ops
  have := List.length_pos.mpr h
  omega

/-- C4 counterexample: on the spec-example input, normalizeFollowUps does
not return the list stated by the claim. The first keyless entry receives
key 2, not key 1, because a missing key defaults to one more than the
number of entries already kept, and one keyed entry was kept before it. -/
theorem normalizeFollowUps_example_claim_false :
    normalizeFollowUps followUpExampleInput ≠
      [⟨4, "A"⟩, ⟨1, "B"⟩, ⟨2, "C"⟩, ⟨3, "D"⟩] := by decide

/-- C4 amended: normalizeFollowUps on the spec-example input returns
exactly four entries with trimmed text and keys clamped into the range one
to four; a keyless entry is assigned the count of already-kept entries
plus one, so the keyless entries here receive keys 2, 3 and 4; the
empty-text entry is dropped and the remaining valid entry is truncated.
This matches the repository test in followup.ts, which expects the second
entry to carry key 2. -/
theorem normalizeFollowUps_example :
    normalizeFollowUps followUpExampleInput =
      [⟨4, "A"⟩, ⟨2, "B"⟩, ⟨3, "C"⟩, ⟨4, "D"⟩] := by decide

/-- C5: for every sequence of append calls on a replace or a register
output session, the appends perform no destination mutation at all (the
text is only buffered), fail performs none either, and the single
destination write is the one effect emitted by finalize. Hence after any
appends followed by fail, the original buffer range and the target
register are untouched. -/
theorem replace_register_all_or_nothing (ctx : TemplateCtx) (reg : Option String)
    (ts : List String) (reason : String) :
    (runAppends ReplaceSession.append (createReplaceSession ctx) ts).2 = [] ∧
    (ReplaceSession.fail (runAppends ReplaceSession.append (createReplaceSession ctx) ts).1 reason).2 = [] ∧
    (∀ s : ReplaceSession, ((ReplaceSession.finalize s).2).length = 1) ∧
    (runAppends RegisterSession.append (createRegisterSession reg) ts).2 = [] ∧
    (RegisterSession.fail (runAppends RegisterSession.append (createRegisterSession reg) ts).1 reason).2 = [] ∧
    (∀ s : RegisterSession, ((RegisterSession.finalize s).2).length = 1) := by
  exact ⟨runAppends_no_effects _ replaceAppend_no_effects _ _, rfl, fun s => rfl,
    runAppends_no_effects _ registerAppend_no_effects _ _, rfl, fun s => rfl⟩

/-- C5 witness companion at concrete inputs, exercising the theorem on a
two-append run against both sessions. -/
theorem replace_register_all_or_nothing_witness :
    (runAppends ReplaceSession.append
      (createReplaceSession ⟨1, ⟨1, 1⟩, ⟨2, 3⟩⟩) ["Hel", "lo\nx"]).2 = [] ∧
    (runAppends RegisterSession.append
      (createRegisterSession (some "a")) ["Hel", "lo\nx"]).2 = [] :=
  ⟨(replace_register_all_or_nothing ⟨1, ⟨1, 1⟩, ⟨2, 3⟩⟩ (some "a") ["Hel", "lo\nx"] "r").1,
    (replace_register_all_or_nothing ⟨1, ⟨1, 1⟩, ⟨2, 3⟩⟩ (some "a") ["Hel", "lo\nx"] "r").2.2.2.1⟩

/-- C8: a CLI stdout line on which the JSON parse throws is never dropped:
the line consumer yields a normalized chunk whose text delta equals the
raw line verbatim, with no other fields set and no hooks fired, for either
CLI provider. -/
theorem cli_parse_failure_surfaced (parse : String → Option Json)
    (provider : CliProvider) (line : String) (h : parse line = none) :
    (consumeCliLine parse provider line).chunk = some { text_delta := some line } ∧
    (consumeCliLine parse provider line).hooks = [] := by
  simp [consumeCliLine, h]

/-- Witness for C8 at a concrete non-JSON warning line. -/
theorem cli_parse_failure_surfaced_witness :
    (fun _ : String => (none : Option Json)) "warning: model fallback" = none ∧
    ((consumeCliLine (fun _ => none) CliProvider.codexCli "warning: model fallback").chunk =
        some { text_delta := some "warning: model fallback" } ∧
      (consumeCliLine (fun _ => none) CliProvider.codexCli "warning: model fallback").hooks = []) :=
  ⟨rfl, cli_parse_failure_surfaced (fun _ => none) CliProvider.codexCli
    "warning: model fallback" rfl⟩

/-! ## Supporting lemmas for the usage merge and the runner -/

/-- The JavaScript nullish-coalescing operator over optional integers. -/
def optOr (a b : Option Int) : Option Int :=
  match a with
  | some v => some v
  | none => b

/-- The last value provided for one usage field across a chunk sequence. -/
def lastProvided (f : UsagePartial → Option Int)
    (chunks : List NormalizedChunk) : Option Int :=
  (chunks.filterMap (fun c => c.usage_partial.bind f)).getLast?

theorem optOr_none_right (a : Option Int) : optOr a none = a := by
  cases a <;> rfl

theorem optOr_some_absorb (a : Option Int) (v : Int) (b : Option Int) :
    optOr (optOr a (some v)) b = optOr a (some v) := by
  cases a <;> rfl

theorem getLast?_cons_eq_optOr (v : Int) (l : List Int) :
    (v :: l).getLast? = optOr l.getLast? (some v) := by
  induction l generalizing v with
  | nil => rfl
  | cons w ws ih =>
    rw [List.getLast?_cons_cons, ih w]
    cases hw : ws.getLast? <;> simp [optOr]

theorem mergeUsage_input (u : Option TemplateCompletionUsage) (p : UsagePartial) :
    (mergeUsage u p).input_tokens = optOr p.input (u.bind (fun x => x.input_tokens)) := by
  cases hp : p.input <;> simp [mergeUsage, optOr, hp]

theorem mergeUsage_output (u : Option TemplateCompletionUsage) (p : UsagePartial) :
    (mergeUsage u p).output_tokens = optOr p.output (u.bind (fun x => x.output_tokens)) := by
  cases hp : p.output <;> simp [mergeUsage, optOr, hp]

theorem chunkStep_usage {σ : Type} (ops : SessionOps σ) (st : LoopState σ)
    (c : NormalizedChunk) :
    (chunkStep ops st c).usage =
      match c.usage_partial with
      | some p => some (mergeUsage st.usage p)
      | none => st.usage := by
  cases hd : c.text_delta <;> cases hu : c.usage_partial <;>
    simp only [chunkStep, hd, hu] <;> split <;> rfl

theorem foldl_chunkStep_usage {σ : Type} (ops : SessionOps σ)
    (f : UsagePartial → Option Int) (g : TemplateCompletionUsage → Option Int)
    (hmerge : ∀ u p, g (mergeUsage u p) = optOr (f p) (u.bind g)) :
    ∀ (chunks : List NormalizedChunk) (st : LoopState σ),
      ((chunks.foldl (chunkStep ops) st).usage).bind g =
        optOr (lastProvided f chunks) (st.usage.bind g) := by
  intro chunks
  induction chunks with
  | nil =>
    intro st
    simp [lastProvided, optOr]
  | cons c rest ih =>
    intro st
    rw [List.foldl_cons, ih]
    have hstep := chunkStep_usage ops st c
    cases hu : c.usage_partial with
    | none =>
      rw [hu] at hstep
      have hstep2 : (chunkStep ops st c).usage = st.usage := hstep
      simp only [hstep2]
      have h1 : lastProvided f (c :: rest) = lastProvided f rest := by
        simp [lastProvided, List.filterMap_cons, hu]
      rw [h1]
    | some p =>
      rw [hu] at hstep
      have hstep2 : (chunkStep ops st c).usage = some (mergeUsage st.usage p) := hstep
      simp only [hstep2, Option.some_bind]
      rw [hmerge st.usage p]
      cases hfp : f p with
      | none =>
        have h1 : lastProvided f (c :: rest) = lastProvided f rest := by
          simp [lastProvided, List.filterMap_cons, hu, hfp]
        rw [h1]
        rfl
      | some v =>
        have h1 : lastProvided f (c :: rest) = optOr (lastProvided f rest) (some v) := by
          simp only [lastProvided, List.filterMap_cons, hu, Option.some_bind, hfp]
          exact getLast?_cons_eq_optOr v _
        rw [h1, optOr_some_absorb]
        rfl

/-- C6: the usage metadata merge of the job runner is last-non-null-wins
per field and never summed. Per chunk, a present input or output value
overwrites the previously recorded value of that field and an absent field
keeps it; across a whole driven chunk sequence, the recorded value of each
field is exactly the last non-null value any chunk provided for it. -/
theorem usage_merge_last_non_null_wins {σ : Type} (ops : SessionOps σ) (s : σ)
    (chunks : List NormalizedChunk) (usage : Option TemplateCompletionUsage)
    (p : UsagePartial) :
    (mergeUsage usage p).input_tokens =
      optOr p.input (usage.bind (fun x => x.input_tokens)) ∧
    (mergeUsage usage p).output_tokens =
      optOr p.output (usage.bind (fun x => x.output_tokens)) ∧
    ((runChunks ops s chunks).usage).bind (fun x => x.input_tokens) =
      lastProvided (fun q => q.input) chunks ∧
    ((runChunks ops s chunks).usage).bind (fun x => x.output_tokens) =
      lastProvided (fun q => q.output) chunks := by
  refine ⟨mergeUsage_input usage p, mergeUsage_output usage p, ?_, ?_⟩
  · have h := foldl_chunkStep_usage ops (fun q => q.input) (fun x => x.input_tokens)
      mergeUsage_input chunks ⟨s, [], [], [], none⟩
    rw [runChunks, h]
    exact optOr_none_right _
  · have h := foldl_chunkStep_usage ops (fun q => q.output) (fun x => x.output_tokens)
      mergeUsage_output chunks ⟨s, [], [], [], none⟩
    rw [runChunks, h]
    exact optOr_none_right _

/-! ## Supporting lemmas for the runner and the registry -/

theorem getJob_finalizeJob (reg : Registry) (id : String) :
    getJob (finalizeJob reg id) id = none := by
  apply List.find?_eq_none.mpr
  intro x hx
  have hq := List.of_mem_filter hx
  simp only [Bool.not_eq_true'] at hq
  simp [hq]

theorem finishJob_removes {σ : Type} (reg : Registry) (id : String) (r : RunResult σ)
    (h : r.status = JobStatus.applied ∨ r.status = JobStatus.error ∨
      r.status = JobStatus.stopped) :
    getJob (finishJob reg id r).registry id = none := by
  simp only [finishJob, if_pos h]
  exact getJob_finalizeJob _ id

theorem runJobModel_removes {σ : Type} (ops : SessionOps σ) (sess : σ)
    (reg : Registry) (job : JobRecord) (chunks : List NormalizedChunk)
    (iterError : Option String) (aborted : Bool) :
    getJob (runJobModel ops sess reg job chunks iterError aborted).registry job.id = none := by
  cases iterError with
  | none => exact finishJob_removes _ _ _ (Or.inl rfl)
  | some e =>
    cases aborted with
    | true =>
      show getJob (finishJob reg job.id _).registry job.id = none
      exact finishJob_removes _ _ _ (Or.inr (Or.inr rfl))
    | false =>
      show getJob (finishJob reg job.id _).registry job.id = none
      exact finishJob_removes _ _ _ (Or.inr (Or.inl rfl))

theorem chunkStep_events_no_fail {σ : Type} (ops : SessionOps σ) (st : LoopState σ)
    (c : NormalizedChunk) :
    ((chunkStep ops st c).events).filter SessEvent.isFail =
      st.events.filter SessEvent.isFail := by
  cases hd : c.text_delta <;> cases hu : c.usage_partial <;>
    simp only [chunkStep, hd, hu] <;>
    first
    | rfl
    | (split <;> simp [List.filter_append, SessEvent.isFail])

theorem runChunks_events_no_fail {σ : Type} (ops : SessionOps σ) (s : σ)
    (chunks : List NormalizedChunk) :
    ((runChunks ops s chunks).events).filter SessEvent.isFail = [] := by
  have key : ∀ (cs : List NormalizedChunk) (st : LoopState σ),
      ((cs.foldl (chunkStep ops) st).events).filter SessEvent.isFail =
        st.events.filter SessEvent.isFail := by
    intro cs
    induction cs with
    | nil => intro st; rfl
    | cons c rest ih =>
      intro st
      rw [List.foldl_cons, ih, chunkStep_events_no_fail]
  rw [runChunks, key]
  rfl

/-- The template context of the success-path scenario: a one-cell
selection in buffer 1. -/
def ctxHello : TemplateCtx := ⟨1, ⟨1, 1⟩, ⟨1, 1⟩⟩

/-- The registered pending job of the success-path scenario. -/
def jobHello : JobRecord := ⟨"job-1", JobStatus.pending, false⟩

/-- The mock chunk sequence of the success-path scenario: one text delta
followed by one usage partial. -/
def chunksHello : List NormalizedChunk :=
  [{ text_delta := some "Hello" }, { usage_partial := some { input := some 10 } }]

/-- C2: running the job over the chunk sequence of a text delta Hello
followed by a usage partial with a replace-mode output session performs
exactly one destination buffer mutation, emitted at finalize and carrying
the full text Hello; the terminal status is applied and the job is gone
from the registry. Moreover, for every input whatsoever, the job id is
absent from the registry after the runner returns: every terminal path
runs the finalize step of the registry. -/
theorem runner_success_path :
    ((runJobModel replaceOps (createReplaceSession ctxHello) [jobHello] jobHello
        chunksHello none false).effects = [BufEffect.setText 1 0 0 0 1 ["Hello"]] ∧
      (runJobModel replaceOps (createReplaceSession ctxHello) [jobHello] jobHello
        chunksHello none false).events =
        [SessEvent.appended "Hello", SessEvent.finalized] ∧
      (runJobModel replaceOps (createReplaceSession ctxHello) [jobHello] jobHello
        chunksHello none false).status = JobStatus.applied ∧
      getJob (runJobModel replaceOps (createReplaceSession ctxHello) [jobHello] jobHello
        chunksHello none false).registry "job-1" = none) ∧
    ∀ (σ : Type) (ops : SessionOps σ) (sess : σ) (reg : Registry) (job : JobRecord)
      (chunks : List NormalizedChunk) (iterError : Option String) (aborted : Bool),
      getJob (runJobModel ops sess reg job chunks iterError aborted).registry job.id = none := by
  refine ⟨⟨by decide, rfl, rfl, by decide⟩, ?_⟩
  intro σ ops sess reg job chunks iterError aborted
  exact runJobModel_removes ops sess reg job chunks iterError aborted

/-- C3: when chunk iteration throws after the cancellation handle of the
job has been tripped, the runner records the stopped status and the one
and only fail call on the session carries the literal reason Job stopped;
when the handle is not tripped, the status is error and the one fail call
carries the thrown error. -/
theorem runner_cancellation_vs_error {σ : Type} (ops : SessionOps σ) (sess : σ)
    (reg : Registry) (job : JobRecord) (chunks : List NormalizedChunk) (e : String) :
    ((runJobModel ops sess reg job chunks (some e) true).status = JobStatus.stopped ∧
      ((runJobModel ops sess reg job chunks (some e) true).events).filter SessEvent.isFail =
        [SessEvent.failed "Job stopped"]) ∧
    ((runJobModel ops sess reg job chunks (some e) false).status = JobStatus.error ∧
      ((runJobModel ops sess reg job chunks (some e) false).events).filter SessEvent.isFail =
        [SessEvent.failed e]) := by
  have hno := runChunks_events_no_fail ops sess chunks
  refine ⟨⟨rfl, ?_⟩, ⟨rfl, ?_⟩⟩
  · show ((runChunks ops sess chunks).events ++
      [SessEvent.failed "Job stopped"]).filter SessEvent.isFail = _
    rw [List.filter_append, hno]
    rfl
  · show ((runChunks ops sess chunks).events ++
      [SessEvent.failed e]).filter SessEvent.isFail = _
    rw [List.filter_append, hno]
    rfl

/-! ## Sample chat data for concrete instances -/

/-- A concrete buffer window. -/
def sampleWin : BufferWindow := ⟨1, 1001, 11⟩

/-- A concrete active chat session with a pinned provider, a non-empty
message log, follow-ups and a provider context. -/
def sampleSession : ChatSessionState :=
  { id := "chat-1"
    prompt := sampleWin
    response := ⟨1, 1002, 12⟩
    headerLines := 5
    followups := [⟨1, "next"⟩]
    followUpEnabled := true
    template := some "translate"
    provider := some "openai"
    layout_mode := LayoutMode.split
    origin_winid := some 7
    messages := [⟨ChatRole.user, "hi"⟩, ⟨ChatRole.assistant, "hello"⟩]
    streaming := false
    providerContext := some ⟨"openai", some "t1", none⟩ }

/-- The sample session with no pinned provider and no provider context. -/
def sampleUnpinnedSession : ChatSessionState :=
  { sampleSession with provider := none, providerContext := none }

/-- C9: for an active chat session whose provider is pinned to a non-empty
string P, setProviderContext with a context from a different provider
leaves the whole session state unchanged, and setProviderContext with a
context from P overlays the incoming fields onto the existing context
object field by field instead of replacing it wholesale. -/
theorem setProviderContext_some (session : ChatSessionState) (ctx : ProviderContext) :
    setProviderContext session (some ctx) =
      if truthyOptStr session.provider = true ∧ session.provider ≠ some ctx.provider
      then session
      else { session with
        providerContext := some (overlayProviderContext session.providerContext ctx) } := rfl

theorem provider_context_merge_guard (session : ChatSessionState) (P : String)
    (ctx ctx2 : ProviderContext) (hpin : session.provider = some P) (hP : P ≠ "")
    (hdiff : ctx.provider ≠ P) (hsame : ctx2.provider = P) :
    setProviderContext session (some ctx) = session ∧
    setProviderContext session (some ctx2) =
      { session with
          providerContext := some (overlayProviderContext session.providerContext ctx2) } := by
  constructor
  · rw [setProviderContext_some, if_pos]
    refine ⟨?_, ?_⟩
    · simp [truthyOptStr, hpin, hP]
    · rw [hpin]
      intro hcon
      exact hdiff (Option.some_injective _ hcon).symm
  · rw [setProviderContext_some, if_neg]
    intro hcon
    exact hcon.2 (by rw [hpin, hsame])

/-- Witness for C9 at the concrete sample session, a late context from a
different provider and an update from the pinned provider. -/
theorem provider_context_merge_guard_witness :
    sampleSession.provider = some "openai" ∧
    ("openai" : String) ≠ "" ∧
    ("claude-cli" : String) ≠ "openai" ∧
    ("openai" : String) = "openai" ∧
    (setProviderContext sampleSession (some ⟨"claude-cli", none, some "s1"⟩) = sampleSession ∧
      setProviderContext sampleSession (some ⟨"openai", none, some "s2"⟩) =
        { sampleSession with
            providerContext := some (overlayProviderContext sampleSession.providerContext
              ⟨"openai", none, some "s2"⟩) }) :=
  ⟨rfl, by decide, by decide, rfl,
    provider_context_merge_guard sampleSession "openai" ⟨"claude-cli", none, some "s1"⟩
      ⟨"openai", none, some "s2"⟩ rfl (by decide) (by decide) rfl⟩

/-- C10: when the active chat session has no pinned provider, the
provider-mismatch guard does not apply and setProviderContext merges the
incoming context, whatever its provider tag, into the session context. -/
theorem provider_context_unpinned_accepts_any (session : ChatSessionState)
    (ctx : ProviderContext) (h : session.provider = none) :
    setProviderContext session (some ctx) =
      { session with
          providerContext := some (overlayProviderContext session.providerContext ctx) } := by
  rw [setProviderContext_some, if_neg]
  intro hcon
  rw [h] at hcon
  exact absurd hcon.1 (by simp [truthyOptStr])

/-- Witness for C10 at the concrete unpinned sample session and a context
from an arbitrary provider. -/
theorem provider_context_unpinned_accepts_any_witness :
    sampleUnpinnedSession.provider = none ∧
    setProviderContext sampleUnpinnedSession (some ⟨"codex-cli", some "t9", none⟩) =
      { sampleUnpinnedSession with
          providerContext := some (overlayProviderContext sampleUnpinnedSession.providerContext
            ⟨"codex-cli", some "t9", none⟩) } :=
  ⟨rfl, provider_context_unpinned_accepts_any sampleUnpinnedSession
    ⟨"codex-cli", some "t9", none⟩ rfl⟩

/-- C1 counterexample: saving the concrete sample session, whose message
log holds two messages, and loading the resulting record yields a session
whose message log is empty, so the reconstructed messages do not match the
values at save time. The durable ChatLogRecord stores only the raw prompt
and response buffer texts and has no message-list field. -/
theorem chat_log_roundtrip_claim_false :
    (loadChatLogSession
        (buildChatLogRecord sampleSession "prompt text" "response text"
          "2026-02-03T00:00:00Z")
        "chat-2" sampleWin sampleWin 5 LayoutMode.split none).messages ≠
      sampleSession.messages := by decide

/-- C1 amended: saving a chat log and loading it reconstructs an active
session whose provider, follow-up flag, follow-up entries and template
match the values at save time; the provider context is taken verbatim when
one was present at save time and otherwise defaults to a bare provider-tag
context when a non-empty provider is pinned; and the message log of the
reconstructed session is empty: the stored content is rendered into the
response surface as raw buffer lines only, and no entry is appended to the
message log, so in particular nothing is duplicated there. -/
theorem chat_log_roundtrip_amended (session : ChatSessionState)
    (promptText responseText timestamp newId : String) (pw rwin : BufferWindow)
    (hl : Nat) (lm : LayoutMode) (ow : Option Int) :
    (loadChatLogSession (buildChatLogRecord session promptText responseText timestamp)
        newId pw rwin hl lm ow).provider = session.provider ∧
    (loadChatLogSession (buildChatLogRecord session promptText responseText timestamp)
        newId pw rwin hl lm ow).followUpEnabled = session.followUpEnabled ∧
    (loadChatLogSession (buildChatLogRecord session promptText responseText timestamp)
        newId pw rwin hl lm ow).followups = session.followups ∧
    (loadChatLogSession (buildChatLogRecord session promptText responseText timestamp)
        newId pw rwin hl lm ow).template = session.template ∧
    (loadChatLogSession (buildChatLogRecord session promptText responseText timestamp)
        newId pw rwin hl lm ow).providerContext =
      (match session.providerContext with
        | some c => some c
        | none =>
          match session.provider with
          | some p => if p.length > 0 then some { provider := p } else none
          | none => none) ∧
    (loadChatLogSession (buildChatLogRecord session promptText responseText timestamp)
        newId pw rwin hl lm ow).messages = [] := by
  refine ⟨rfl, ?_, rfl, rfl, rfl, rfl⟩
  show (some session.followUpEnabled == some true) = session.followUpEnabled
  cases session.followUpEnabled <;> rfl
